import Mathlib

/-
Verification development for the pylava repository (a Lavalink bridge for
discord.py bots). The definitions below are a shallow embedding of
src/pylava/connection.py and src/pylava/player.py: Python objects become
structures, the mutable per-Connection state becomes an explicit state
record threaded through the operations, exceptions become Except, and the
outbound websocket traffic is recorded in a ghost log of envelopes.
-/

set_option autoImplicit false

namespace Pylava

/-- Python values that appear as fields of outbound envelopes and as
positional arguments: ints, strings, floats (modelled as rationals) and
None. -/
inductive PyVal where
  | int (n : Int)
  | str (s : String)
  | float (q : ℚ)
  | pyNone
deriving Repr, DecidableEq

/-- Python exceptions raised by the embedded code: Disconnected (from
pylava.errors), TypeError (arity mismatch on a call), ValueError (int() on
a non-numeric string) and KeyError (dict/attribute access failure). -/
inductive PyErr where
  | disconnected
  | typeError
  | valueError
  | keyError
deriving Repr, DecidableEq

/-- Wire envelope: the kwargs dict passed to Connection._send, restricted
to the keys the embedded call sites use. A missing key is none. -/
structure Envelope where
  op : Option String := none
  guildId : Option PyVal := none
  channelId : Option PyVal := none
  valid : Option Bool := none
  track : Option PyVal := none
  pause : Option Bool := none
deriving Repr, DecidableEq

/-- Models the Python int() conversion used in Connection._send and the
dispatch loop: an int passes through, a string is parsed, anything else
(or an unparsable string) fails. -/
def pyIntOf : PyVal → Option Int
  | .int n => some n
  | .str s => s.toInt?
  | _ => none

/-- Embeds the coercion in Connection._send: an integer guildId/channelId
value is replaced by its decimal string form; other values pass through. -/
def coerceVal : Option PyVal → Option PyVal
  | some (.int n) => some (.str (toString n))
  | v => v

/-- The envelope as it is serialized to the transport, after the
guildId/channelId string coercion in Connection._send. -/
def coerceEnv (e : Envelope) : Envelope :=
  { e with guildId := coerceVal e.guildId, channelId := coerceVal e.channelId }

/-- Embeds the Player object of src/pylava/player.py. The id field is a
model artifact giving Python object identity: distinct allocations get
distinct ids. The hasCallback flag models truthiness of _track_callback. -/
structure Player where
  id : Nat
  guild : Int
  connecting : Bool
  channel : Option Int
  paused : Bool
  playing : Bool
  position : Option ℚ
  volume : Int
  hasCallback : Bool
deriving Repr, DecidableEq

/-- Embeds Player.__init__: the dynamic variables of a freshly built
player for a guild, allocated with object identity i. -/
def Player.init (g : Int) (i : Nat) : Player :=
  { id := i, guild := g, connecting := false, channel := none,
    paused := false, playing := false, position := none, volume := 100,
    hasCallback := false }

/-- Association list keyed by Int, embedding a Python dict (insertion
order preserved, unique keys). -/
abbrev AList (α : Type) : Type := List (Int × α)

namespace AList

/-- Dict lookup: dict.get(g). -/
def lookup {α : Type} : AList α → Int → Option α
  | [], _ => none
  | (k, v) :: rest, g => if k = g then some v else lookup rest g

/-- Dict write: d[g] = v, updating in place or appending a new key. -/
def set {α : Type} : AList α → Int → α → AList α
  | [], g, v => [(g, v)]
  | (k, w) :: rest, g, v => if k = g then (g, v) :: rest else (k, w) :: set rest g v

/-- Mutation of an existing entry: d[g] = f d[g]; absent keys untouched. -/
def modify {α : Type} : AList α → Int → (α → α) → AList α
  | [], _, _ => []
  | (k, w) :: rest, g, f => if k = g then (k, f w) :: rest else (k, w) :: modify rest g f

/-- The keys of the dict, in insertion order (tuple(d) in Python). -/
def keys {α : Type} (l : AList α) : List Int := l.map Prod.fst

end AList

/-- Entry of the _limbo dict in Connection: the channel the player was in
when its shard went down, and whether an unpause action was recorded
(op_unpause appended because the player was not paused). -/
structure LimboEntry where
  channel : Int
  unpause : Bool
deriving Repr, DecidableEq

/-- Embeds the mutable state of a Connection object: the Lavalink
websocket handle (none when absent, some b for a transport whose open flag
is b), the player registry _players, the _limbo dict, the shard ids with a
pending _unlimbo_shard task (_unlimbo_tasks keys), a ghost log of the
envelopes written to the transport, and the allocation counter backing
Player object identity. -/
structure Connection where
  websocket : Option Bool
  players : AList Player
  limbo : AList LimboEntry
  unlimboTasks : List Nat
  sent : List Envelope
  nextId : Nat
deriving Repr, DecidableEq

/-- Embeds the Connection.connected property: false when the websocket
handle is absent, otherwise the transport open flag. -/
def Connection.connected (c : Connection) : Bool :=
  match c.websocket with
  | none => false
  | some o => o

/-- Embeds Connection.get_player: return the registered player for the
guild, or build, register and return a fresh one. Total by construction. -/
def Connection.get_player (c : Connection) (g : Int) : Player × Connection :=
  match AList.lookup c.players g with
  | some p => (p, c)
  | none =>
    let p := Player.init g c.nextId
    (p, { c with players := AList.set c.players g p, nextId := c.nextId + 1 })

/-- Embeds Connection._send. Raises Disconnected when not connected,
before anything reaches the transport. For a validationRes envelope with
valid false it resolves the player for the guild id (registering it if
absent) and clears its _channel, then coerces integer guildId/channelId
fields to strings and writes the envelope to the transport log. -/
def Connection._send (c : Connection) (e : Envelope) : Except PyErr Connection :=
  if c.connected = false then .error .disconnected
  else
    let afterValidation : Except PyErr Connection :=
      if e.op = some "validationRes" ∧ e.valid = some false then
        match e.guildId with
        | none => .error .keyError
        | some v =>
          match pyIntOf v with
          | none => .error .valueError
          | some g =>
            let pc := c.get_player g
            .ok { pc.2 with
                  players := AList.modify pc.2.players g fun p => { p with channel := none } }
      else .ok c
    match afterValidation with
    | .error err => .error err
    | .ok c2 => .ok { c2 with sent := c2.sent ++ [coerceEnv e] }

/-- Embeds Connection.disconnect: raises Disconnected when already
disconnected, otherwise closes the transport, clears the websocket handle
and resets the player registry to empty. -/
def Connection.disconnect (c : Connection) : Except PyErr Connection :=
  if c.connected = false then .error .disconnected
  else .ok { c with websocket := none, players := [] }

/-- A REST request issued by Connection.query: the url it GETs and the
identifier query parameter. -/
structure RestRequest where
  url : String
  identifier : String
deriving Repr, DecidableEq

/-- Embeds Connection.query. The REST backend is abstracted as a function
from request index to response body (a list of opaque track descriptors).
The source issues exactly one GET to rest_url/loadtracks with the query
text as identifier and returns the parsed body; the returned pair is the
body together with the list of requests issued. -/
def Connection.query (restUrl : String) (text : String)
    (backend : Nat → List String) : List String × List RestRequest :=
  (backend 0, [{ url := restUrl ++ "/loadtracks", identifier := text }])

/-- Modelled from the spec (section 4.4), not from the source: the spec
describes query(text, retry_count, retry_delay) as reissuing the REST
search while the result is empty, decrementing a bounded retry budget, and
returning the first non-empty result or the final empty one. This is the
bounded-budget case, recursing on the remaining retry count; the attempt
index selects the response from the abstract backend. -/
def querySpecRetry (backend : Nat → List String) : Nat → Nat → List String
  | attempt, budget =>
    let r := backend attempt
    if r = [] then
      match budget with
      | 0 => r
      | b + 1 => querySpecRetry backend (attempt + 1) b
    else r

/-- Embeds Connection._discord_disconnect: forwards a disconnect envelope
for the guild to Lavalink via Connection._send. -/
def Connection._discord_disconnect (c : Connection) (g : Int) : Except PyErr Connection :=
  c._send { op := some "disconnect", guildId := some (.int g) }

/-- Embeds Connection._discord_pause: forwards a pause envelope for the
guild via Connection._send. -/
def Connection._discord_pause (c : Connection) (g : Int) (paused : Bool) :
    Except PyErr Connection :=
  c._send { op := some "pause", guildId := some (.int g), pause := some paused }

/-- Embeds the body of Connection._discord_play, whose parameters are
exactly (guild_id, track): the play envelope carries only those two
fields. -/
def Connection._discord_play (c : Connection) (guild_id : PyVal) (track : PyVal) :
    Except PyErr Connection :=
  c._send { op := some "play", guildId := some guild_id, track := some track }

/-- Models a Python call to a two-parameter method with a list of
positional arguments: any argument count other than two raises TypeError
before the body runs. -/
def callPy2 (f : Connection → PyVal → PyVal → Except PyErr Connection)
    (c : Connection) (args : List PyVal) : Except PyErr Connection :=
  match args with
  | [a, b] => f c a b
  | _ => .error .typeError

/-- Embeds Player.disconnect for the registered player of guild g: sends
the disconnect command, and only once the send returns does the
assignment clearing _channel run; a raised send error propagates with the
registry untouched. -/
def Player.disconnect (c : Connection) (g : Int) : Except PyErr Connection :=
  match c._discord_disconnect g with
  | .error err => .error err
  | .ok c2 =>
    .ok { c2 with players := AList.modify c2.players g fun p => { p with channel := none } }

/-- Embeds Player.play for the registered player of guild g: the source
calls self.conn._discord_play(self._guild, track, start_time, end_time),
four positional arguments against a two-parameter method, so the call is
modelled through callPy2; on success the _playing flag is set. -/
def Player.play (c : Connection) (g : Int) (track : String) (start_time : ℚ)
    (end_time : Option ℚ) : Except PyErr Connection :=
  let endVal : PyVal := match end_time with
    | some q => .float q
    | none => .pyNone
  match callPy2 Connection._discord_play c [.int g, .str track, .float start_time, endVal] with
  | .error err => .error err
  | .ok c2 =>
    .ok { c2 with players := AList.modify c2.players g fun p => { p with playing := true } }

/-- Embeds Player.set_pause for the registered player of guild g: a no-op
when the requested state equals the current _paused flag, otherwise sends
the pause command and updates the flag. A missing registry entry is a
model-level KeyError (the source reads attributes of the player object). -/
def Player.set_pause (c : Connection) (g : Int) (paused : Bool) : Except PyErr Connection :=
  match AList.lookup c.players g with
  | none => .error .keyError
  | some p =>
    if paused = p.paused then .ok c
    else
      match c._discord_pause g paused with
      | .error err => .error err
      | .ok c2 =>
        .ok { c2 with players := AList.modify c2.players g fun q => { q with paused := paused } }

/-- Event envelope fields read by Player._process_event: the op tag and
the event type tag. -/
structure EventEnv where
  op : String
  type : String
deriving Repr, DecidableEq

/-- Embeds Player._process_event on a single player value. The returned
list records each invocation of the track callback together with the
player value it receives (the already-mutated self); awaiting a deferred
handler is a single invocation all the same. An envelope whose op is not
the event tag is ignored, as is a type other than TrackEndEvent; with no
registered callback nothing follows the state reset. -/
def Player._process_event (e : EventEnv) (p : Player) : Player × List Player :=
  if e.op ≠ "event" then (p, [])
  else if e.type = "TrackEndEvent" then
    let p2 := { p with playing := false, position := none }
    if p2.hasCallback = false then (p2, [])
    else (p2, [p2])
  else (p, [])

/-- Embeds the playerUpdate arm of Connection._lava_event_processor: when
the state carries a position, resolve the player through get_player and
set its _position to the reported position in seconds plus the delivery
lag now - reported_time, all times converted from milliseconds. Without a
position field the envelope is ignored. -/
def Connection._lava_player_update (c : Connection) (g : Int) (timeMs : ℚ)
    (positionMs : Option ℚ) (now : ℚ) : Connection :=
  match positionMs with
  | none => c
  | some posMs =>
    let pc := c.get_player g
    let lag : ℚ := now - timeMs / 1000
    { pc.2 with
      players := AList.modify pc.2.players g fun p =>
        { p with position := some (posMs / 1000 + lag) } }

/-- Per-shard view of the Discord side: the shard count and, for each
shard id, the websocket _get_discord_ws resolves to (none when absent,
some b for a transport with open flag b). -/
structure DiscordState where
  shardCount : Nat
  ws : Nat → Option Bool

/-- Embeds the routing formula (guild_id >> 22) % shard_count with Python
semantics: floor shift and nonnegative modulus. -/
def shardOf (shardCount : Nat) (g : Int) : Nat :=
  (Int.emod (Int.fdiv g (2 ^ 22)) shardCount).toNat

/-- Embeds the panicking predicate inside
Connection._discord_connection_handler: a shard panics unless its
websocket exists and is open. -/
def panicking (d : DiscordState) (sid : Nat) : Bool :=
  match d.ws sid with
  | some true => false
  | _ => true

/-- Embeds the Python truthiness test (if not player._channel) on the
_channel attribute: None and channel id 0 are falsy. -/
def channelTruthy : Option Int → Bool
  | none => false
  | some n => n ≠ 0

/-- Records a pending _unlimbo_shard task for the shard unless one is
already registered. -/
def spawnUnlimbo (c : Connection) (sid : Nat) : Connection :=
  if c.unlimboTasks.contains sid then c
  else { c with unlimboTasks := c.unlimboTasks ++ [sid] }

/-- Embeds one guild iteration of the pause loop in
Connection._discord_connection_handler: skip guilds already in limbo,
guilds on non-panicking shards and players without a truthy channel;
otherwise disconnect the player, pause it when it was not paused
(recording the unpause action), store the limbo entry and make sure an
unlimbo task exists for the shard. -/
def handleGuild (pan : List Nat) (shardCount : Nat) (c : Connection) (g : Int) :
    Except PyErr Connection :=
  if (AList.lookup c.limbo g).isSome then .ok c
  else
    let sid := shardOf shardCount g
    if pan.contains sid = false then .ok c
    else
      match AList.lookup c.players g with
      | none => .error .keyError
      | some player =>
        if channelTruthy player.channel = false then .ok c
        else
          let ch := player.channel.getD 0
          match Player.disconnect c g with
          | .error err => .error err
          | .ok c1 =>
            if player.paused then
              .ok (spawnUnlimbo
                { c1 with limbo := AList.set c1.limbo g { channel := ch, unpause := false } } sid)
            else
              match Player.set_pause c1 g true with
              | .error err => .error err
              | .ok c2 =>
                .ok (spawnUnlimbo
                  { c2 with limbo := AList.set c2.limbo g { channel := ch, unpause := true } }
                  sid)

/-- Embeds one cycle of the while loop in
Connection._discord_connection_handler: compute the shards hosting
players, keep the panicking ones, and when any shard panics run the pause
loop over a snapshot of the registry keys. The Python set of shards is
kept as a list; only emptiness and membership of the filtered list are
ever consulted, which duplicates do not change. -/
def Connection._discord_connection_handler_cycle (d : DiscordState) (c : Connection) :
    Except PyErr Connection :=
  let shardsToCheck := (AList.keys c.players).map (shardOf d.shardCount)
  let pan := shardsToCheck.filter (panicking d)
  if pan.isEmpty then .ok c
  else (AList.keys c.players).foldlM (handleGuild pan d.shardCount) c

/-- Lookup after writing the same key returns the written value. -/
theorem AList.lookup_set_self {α : Type} (l : AList α) (g : Int) (v : α) :
    AList.lookup (AList.set l g v) g = some v := by
  induction l with
  | nil => simp [AList.set, AList.lookup]
  | cons kv rest ih =>
    by_cases h : kv.1 = g
    · simp [AList.set, AList.lookup, h]
    · simpa [AList.set, AList.lookup, h] using ih

/-- Lookup of a different key is unchanged by a write. -/
theorem AList.lookup_set_ne {α : Type} (l : AList α) {g h : Int} (v : α) (hne : h ≠ g) :
    AList.lookup (AList.set l g v) h = AList.lookup l h := by
  induction l with
  | nil => simp [AList.set, AList.lookup, Ne.symm hne]
  | cons kv rest ih =>
    by_cases hk : kv.1 = g
    · subst hk
      simp [AList.set, AList.lookup, Ne.symm hne]
    · simp [AList.set, AList.lookup, hk, ih]

/-- Lookup after modifying a key applies the function to the held value. -/
theorem AList.lookup_modify_self {α : Type} (l : AList α) (g : Int) (f : α → α) :
    AList.lookup (AList.modify l g f) g = (AList.lookup l g).map f := by
  induction l with
  | nil => simp [AList.modify, AList.lookup]
  | cons kv rest ih =>
    by_cases h : kv.1 = g
    · simp [AList.modify, AList.lookup, h]
    · simp [AList.modify, AList.lookup, h, ih]

/-- After get_player the registry holds the returned player at the guild. -/
theorem Connection.get_player_lookup (c : Connection) (g : Int) :
    AList.lookup (c.get_player g).2.players g = some (c.get_player g).1 := by
  unfold Connection.get_player
  cases h : AList.lookup c.players g with
  | some p => simp [h]
  | none => simp [h, AList.lookup_set_self]

/-- The transport log is untouched by get_player. -/
theorem Connection.get_player_sent (c : Connection) (g : Int) :
    (c.get_player g).2.sent = c.sent := by
  unfold Connection.get_player
  cases h : AList.lookup c.players g <;> simp [h]

/-- The allocation counter never decreases across get_player, and the
fresh-allocation case uses exactly the old counter as the new id. -/
theorem Connection.get_player_id (c : Connection) (g : Int) :
    (AList.lookup c.players g = some (c.get_player g).1 ∧ (c.get_player g).2 = c) ∨
      (AList.lookup c.players g = none ∧ (c.get_player g).1.id = c.nextId ∧
        (c.get_player g).2.nextId = c.nextId + 1 ∧
        (c.get_player g).2.players = AList.set c.players g (c.get_player g).1) := by
  unfold Connection.get_player
  cases h : AList.lookup c.players g with
  | some p => exact Or.inl ⟨by simp [h], by simp [h]⟩
  | none =>
    exact Or.inr ⟨by simp [h], by simp [h, Player.init], by simp [h], by simp [h]⟩

/-- After spawnUnlimbo the shard id is registered among the pending
unlimbo tasks. -/
theorem spawnUnlimbo_contains (c : Connection) (sid : Nat) :
    ((spawnUnlimbo c sid).unlimboTasks).contains sid = true := by
  unfold spawnUnlimbo
  by_cases h : c.unlimboTasks.contains sid = true
  · have hm : sid ∈ c.unlimboTasks := by
      simpa [List.contains, List.elem_iff] using h
    simp [h, hm]
  · rw [if_neg h]
    simp [List.contains, List.elem_iff]

/-- Backend used for the C1 counterexample: empty body for the first
request, one track for every later request. -/
def backendCE : Nat → List String := fun i => if i = 0 then [] else ["trackA"]

/-- C1: the claim says query with a nonzero retry count retries the REST
search after an empty result and returns the first non-empty result. The
source issues exactly one request and returns whatever came back: on a
backend that is empty on the first request and non-empty on the second,
the spec-modelled retrying query with retry budget 1 returns the track,
while Connection.query performs a single request and returns the empty
result, so the two disagree. -/
theorem C1_query_no_retry_counterexample :
    (Connection.query "http://localhost" "rick" backendCE).1 = [] ∧
    (Connection.query "http://localhost" "rick" backendCE).2.length = 1 ∧
    querySpecRetry backendCE 0 1 = ["trackA"] ∧
    (Connection.query "http://localhost" "rick" backendCE).1 ≠ querySpecRetry backendCE 0 1 := by
  refine ⟨rfl, rfl, ?_, ?_⟩ <;> simp [querySpecRetry, Connection.query, backendCE]

/-- C1 (amended): Connection.query issues exactly one REST request, a GET
of rest_url/loadtracks with the query text as the identifier parameter,
and returns the parsed response unchanged; it has no retry parameters and
performs no retry. -/
theorem C1_query_single_request (restUrl text : String) (backend : Nat → List String) :
    Connection.query restUrl text backend =
      (backend 0, [{ url := restUrl ++ "/loadtracks", identifier := text }]) := rfl

/-- C2: every call to Player.play raises TypeError, because the source
passes four positional arguments (guild, track, start_time, end_time) to
Connection._discord_play, whose parameters are exactly (guild_id, track);
no play command reaches the backend and the playing flag is never set. -/
theorem C2_play_raises_type_error (c : Connection) (g : Int) (track : String)
    (start_time : ℚ) (end_time : Option ℚ) :
    Player.play c g track start_time end_time = .error .typeError := rfl

/-- C7: an event envelope tagged with op event and type TrackEndEvent
leaves the player not playing with its position cleared, and the track
callback is invoked exactly once with the mutated player as its argument
when one is registered, and not at all otherwise. -/
theorem C7_track_end_event (e : EventEnv) (p : Player)
    (hop : e.op = "event") (hty : e.type = "TrackEndEvent") :
    (Player._process_event e p).1.playing = false ∧
    (Player._process_event e p).1.position = none ∧
    (Player._process_event e p).2 =
      (if p.hasCallback then [(Player._process_event e p).1] else []) := by
  unfold Player._process_event
  cases hcb : p.hasCallback <;> simp [hop, hty, hcb]

/-- Event envelope used by the C7 witness. -/
def eventTE : EventEnv := { op := "event", type := "TrackEndEvent" }

/-- Player used by the C7 witness: mid-playback with a registered
callback. -/
def playerCB : Player :=
  { Player.init 3 0 with hasCallback := true, playing := true, position := some 12 }

/-- Witness instantiating C7 on a concrete envelope and player. -/
theorem C7_track_end_event_witness :
    (Player._process_event eventTE playerCB).1.playing = false ∧
    (Player._process_event eventTE playerCB).1.position = none ∧
    (Player._process_event eventTE playerCB).2 =
      (if playerCB.hasCallback then [(Player._process_event eventTE playerCB).1] else []) :=
  C7_track_end_event eventTE playerCB rfl rfl

/-- C8: processing a playerUpdate envelope that reports time T in
milliseconds and position P in milliseconds while the wall clock reads now
seconds stores P/1000 + (now - T/1000) as the position of the target
player. -/
theorem C8_player_update_position (c : Connection) (g : Int)
    (timeMs posMs now : ℚ) :
    ∃ p, AList.lookup (Connection._lava_player_update c g timeMs (some posMs) now).players g
        = some p ∧
      p.position = some (posMs / 1000 + (now - timeMs / 1000)) := by
  refine ⟨{ (c.get_player g).1 with
            position := some (posMs / 1000 + (now - timeMs / 1000)) }, ?_, rfl⟩
  unfold Connection._lava_player_update
  simp [AList.lookup_modify_self, Connection.get_player_lookup]

/-- Connection state for the C4 counterexample: websocket handle absent,
one registered player connected to channel 5. -/
def connDown : Connection :=
  { websocket := none, players := [(7, { Player.init 7 0 with channel := some 5 })],
    limbo := [], unlimboTasks := [], sent := [], nextId := 1 }

/-- C4: the claim says the channel is cleared even when the control
connection is down. On a disconnected connection, Player.disconnect
raises Disconnected from the underlying send before the clearing
assignment runs, so the registered player still holds channel 5 rather
than none. -/
theorem C4_disconnect_down_counterexample :
    Player.disconnect connDown 7 = .error .disconnected ∧
    (AList.lookup connDown.players 7).map Player.channel = some (some 5) := by
  exact ⟨rfl, rfl⟩

/-- C4 (amended): Player.disconnect issues the disconnect command and,
once the send returns, clears the channel regardless of any confirmation;
when the control connection is down the Disconnected failure propagates
from the send and the registry, the channel included, is left unchanged. -/
theorem C4_disconnect_clears_channel (c : Connection) (g : Int) :
    (c.connected = false → Player.disconnect c g = .error .disconnected) ∧
    (c.connected = true → ∃ c2, Player.disconnect c g = .ok c2 ∧
      AList.lookup c2.players g =
        (AList.lookup c.players g).map (fun p => { p with channel := none }) ∧
      c2.sent = c.sent ++ [coerceEnv { op := some "disconnect", guildId := some (.int g) }]) := by
  constructor
  · intro h
    unfold Player.disconnect Connection._discord_disconnect Connection._send
    simp [h]
  · intro h
    refine ⟨{ c with
        sent := c.sent ++ [coerceEnv { op := some "disconnect", guildId := some (.int g) }],
        players := AList.modify c.players g fun p => { p with channel := none } }, ?_, ?_, rfl⟩
    · unfold Player.disconnect Connection._discord_disconnect Connection._send
      simp [h]
    · simp [AList.lookup_modify_self]

/-- Connection state for the C4 witness: connected, one registered player
on channel 5. -/
def connUp7 : Connection :=
  { websocket := some true, players := [(7, { Player.init 7 0 with channel := some 5 })],
    limbo := [], unlimboTasks := [], sent := [], nextId := 1 }

/-- Witness instantiating the amended C4 on a connected state. -/
theorem C4_disconnect_clears_channel_witness :
    ∃ c2, Player.disconnect connUp7 7 = .ok c2 ∧
      AList.lookup c2.players 7 =
        (AList.lookup connUp7.players 7).map (fun p => { p with channel := none }) ∧
      c2.sent = connUp7.sent ++
        [coerceEnv { op := some "disconnect", guildId := some (.int 7) }] :=
  (C4_disconnect_clears_channel connUp7 7).2 rfl

/-- C5: _send on a disconnected connection fails with Disconnected and no
success state reaches the transport; on a connected connection the
envelope is written to the transport log with integer guildId and
channelId fields coerced to string form. The connected case assumes that
a validationRes envelope carrying valid false resolves its guild id to an
integer, which holds for every envelope the source constructs. -/
theorem C5_send_gate_and_coercion (c : Connection) (e : Envelope) :
    (c.connected = false → Connection._send c e = .error .disconnected) ∧
    (c.connected = true →
      (e.op = some "validationRes" → e.valid = some false →
        ∃ v n, e.guildId = some v ∧ pyIntOf v = some n) →
      ∃ c2, Connection._send c e = .ok c2 ∧ c2.sent = c.sent ++ [coerceEnv e]) := by
  constructor
  · intro h
    unfold Connection._send
    simp [h]
  · intro h hval
    by_cases hcond : e.op = some "validationRes" ∧ e.valid = some false
    · obtain ⟨v, n, hv, hn⟩ := hval hcond.1 hcond.2
      refine ⟨{ (c.get_player n).2 with
          players := AList.modify (c.get_player n).2.players n fun p => { p with channel := none },
          sent := (c.get_player n).2.sent ++ [coerceEnv e] }, ?_, ?_⟩
      · unfold Connection._send
        simp [h, hcond.1, hcond.2, hv, hn]
      · simp [Connection.get_player_sent]
    · refine ⟨{ c with sent := c.sent ++ [coerceEnv e] }, ?_, rfl⟩
      unfold Connection._send
      simp [h, hcond]

/-- Disconnected connection used by the C5 witness. -/
def connDisc : Connection :=
  { websocket := none, players := [], limbo := [], unlimboTasks := [], sent := [], nextId := 0 }

/-- Connected empty connection shared by the C5 and C10 witnesses. -/
def connLive : Connection :=
  { websocket := some true, players := [], limbo := [], unlimboTasks := [], sent := [], nextId := 0 }

/-- Play envelope with an integer guild id, used by the C5 witness. -/
def envPlay : Envelope :=
  { op := some "play", guildId := some (.int 4), track := some (.str "abc") }

/-- Witness instantiating C5 on both a disconnected and a connected
state. -/
theorem C5_send_gate_and_coercion_witness :
    Connection._send connDisc envPlay = .error .disconnected ∧
    ∃ c2, Connection._send connLive envPlay = .ok c2 ∧
      c2.sent = connLive.sent ++ [coerceEnv envPlay] :=
  ⟨(C5_send_gate_and_coercion connDisc envPlay).1 rfl,
   (C5_send_gate_and_coercion connLive envPlay).2 rfl
     (fun hop _ => absurd hop (by decide))⟩

/-- C10: sending a validationRes envelope carrying valid false on a
connected connection resolves the player for the envelope guild id,
registering one if absent, clears its channel, and transmits the coerced
envelope, all inside the send path itself. -/
theorem C10_validation_failure_clears_channel (c : Connection) (e : Envelope)
    (v : PyVal) (n : Int)
    (hc : c.connected = true) (hop : e.op = some "validationRes")
    (hvalid : e.valid = some false) (hgid : e.guildId = some v)
    (hn : pyIntOf v = some n) :
    ∃ c2 p, Connection._send c e = .ok c2 ∧
      AList.lookup c2.players n = some p ∧ p.channel = none ∧
      c2.sent = c.sent ++ [coerceEnv e] := by
  refine ⟨{ (c.get_player n).2 with
      players := AList.modify (c.get_player n).2.players n fun p => { p with channel := none },
      sent := (c.get_player n).2.sent ++ [coerceEnv e] },
    { (c.get_player n).1 with channel := none }, ?_, ?_, rfl, ?_⟩
  · unfold Connection._send
    simp [hc, hop, hvalid, hgid, hn]
  · simp [AList.lookup_modify_self, Connection.get_player_lookup]
  · simp [Connection.get_player_sent]

/-- Failing validation envelope used by the C10 witness. -/
def envValFail : Envelope :=
  { op := some "validationRes", guildId := some (.int 42), valid := some false }

/-- Witness instantiating C10 on a connection with an empty registry: the
player for guild 42 is created inside the send path with its channel
cleared. -/
theorem C10_validation_failure_clears_channel_witness :
    ∃ c2 p, Connection._send connLive envValFail = .ok c2 ∧
      AList.lookup c2.players 42 = some p ∧ p.channel = none ∧
      c2.sent = connLive.sent ++ [coerceEnv envValFail] :=
  C10_validation_failure_clears_channel connLive envValFail (.int 42) 42
    rfl rfl rfl rfl rfl

/-- Resolution lemma: get_player on a registered guild returns that
player and leaves the state unchanged. -/
theorem Connection.get_player_of_lookup (c : Connection) (g : Int) (p : Player)
    (h : AList.lookup c.players g = some p) : c.get_player g = (p, c) := by
  unfold Connection.get_player
  simp [h]

/-- Resolution lemma: get_player on an unknown guild allocates a player
with the current counter as identity, registers it and bumps the
counter. -/
theorem Connection.get_player_of_lookup_none (c : Connection) (g : Int)
    (h : AList.lookup c.players g = none) :
    c.get_player g = (Player.init g c.nextId,
      { c with players := AList.set c.players g (Player.init g c.nextId),
               nextId := c.nextId + 1 }) := by
  unfold Connection.get_player
  simp [h]

/-- Identity invariant: every registered player carries an id below the
allocation counter. -/
def idsBelow (c : Connection) : Prop :=
  ∀ g p, AList.lookup c.players g = some p → p.id < c.nextId

/-- Identity invariant: players registered under distinct guilds carry
distinct ids. -/
def distinctIds (c : Connection) : Prop :=
  ∀ g1 g2 p1 p2, g1 ≠ g2 → AList.lookup c.players g1 = some p1 →
    AList.lookup c.players g2 = some p2 → p1.id ≠ p2.id

/-- C6: Connection.disconnect fails with Disconnected when already
disconnected; otherwise it clears the websocket handle and discards the
whole registry, so that afterwards connected is false and get_player for
any guild returns a freshly allocated player whose identity differs from
that of every player obtainable before the disconnect. -/
theorem C6_disconnect_resets_registry (c : Connection) (hinv : idsBelow c) :
    (c.connected = false → Connection.disconnect c = .error .disconnected) ∧
    (c.connected = true → ∃ c2, Connection.disconnect c = .ok c2 ∧
      c2.connected = false ∧ c2.players = [] ∧
      ∀ g gPrev p, AList.lookup c.players gPrev = some p →
        (c2.get_player g).1.id ≠ p.id) := by
  constructor
  · intro h
    unfold Connection.disconnect
    simp [h]
  · intro h
    refine ⟨{ c with websocket := none, players := [] }, ?_, rfl, rfl, ?_⟩
    · unfold Connection.disconnect
      simp [h]
    · intro g gPrev p hp
      have hfresh :
          (({ c with websocket := none, players := [] } : Connection).get_player g).1.id
            = c.nextId := rfl
      rw [hfresh]
      exact (hinv gPrev p hp).ne'

/-- Connection used by the C6 witness: connected, one registered player
with identity 0, counter 1. -/
def connInv : Connection :=
  { websocket := some true, players := [(3, Player.init 3 0)],
    limbo := [], unlimboTasks := [], sent := [], nextId := 1 }

/-- Witness instantiating C6 on a connected state holding one player. -/
theorem C6_disconnect_resets_registry_witness :
    ∃ c2, Connection.disconnect connInv = .ok c2 ∧
      c2.connected = false ∧ c2.players = [] ∧
      ∀ g gPrev p, AList.lookup connInv.players gPrev = some p →
        (c2.get_player g).1.id ≠ p.id :=
  (C6_disconnect_resets_registry connInv (by
    intro g p hp
    simp only [connInv, AList.lookup] at hp
    split at hp
    · injection hp with hp2
      subst hp2
      decide
    · exact Option.noConfusion hp)).2 rfl

/-- C9: get_player is a total operation; from any state satisfying the
identity invariants, a repeated call for the same guild returns the
identical player and state, and calls for two distinct guilds return
players with distinct identities. -/
theorem C9_get_player_identity (c : Connection) (g g1 g2 : Int)
    (hbelow : idsBelow c) (hdist : distinctIds c) (hne : g1 ≠ g2) :
    (c.get_player g).2.get_player g = c.get_player g ∧
    ((c.get_player g1).2.get_player g2).1.id ≠ (c.get_player g1).1.id := by
  constructor
  · cases h : AList.lookup c.players g with
    | some p =>
      rw [Connection.get_player_of_lookup c g p h]
      exact Connection.get_player_of_lookup c g p h
    | none =>
      rw [Connection.get_player_of_lookup_none c g h]
      exact Connection.get_player_of_lookup _ g _ (AList.lookup_set_self c.players g _)
  · cases h1 : AList.lookup c.players g1 with
    | some p1 =>
      rw [Connection.get_player_of_lookup c g1 p1 h1]
      cases h2 : AList.lookup c.players g2 with
      | some p2 =>
        rw [Connection.get_player_of_lookup c g2 p2 h2]
        exact hdist g2 g1 p2 p1 (Ne.symm hne) h2 h1
      | none =>
        rw [Connection.get_player_of_lookup_none c g2 h2]
        exact (hbelow g1 p1 h1).ne'
    | none =>
      rw [Connection.get_player_of_lookup_none c g1 h1]
      have hset : AList.lookup (AList.set c.players g1 (Player.init g1 c.nextId)) g2
          = AList.lookup c.players g2 :=
        AList.lookup_set_ne c.players (Player.init g1 c.nextId) (Ne.symm hne)
      cases h2 : AList.lookup c.players g2 with
      | some p2 =>
        rw [Connection.get_player_of_lookup _ g2 p2 (hset.trans h2)]
        exact (hbelow g2 p2 h2).ne
      | none =>
        rw [Connection.get_player_of_lookup_none _ g2 (hset.trans h2)]
        exact Nat.succ_ne_self c.nextId

/-- Witness instantiating C9 on the empty connected state, with guilds 5
and the distinct pair 1 and 2. -/
theorem C9_get_player_identity_witness :
    (connLive.get_player 5).2.get_player 5 = connLive.get_player 5 ∧
    ((connLive.get_player 1).2.get_player 2).1.id ≠ (connLive.get_player 1).1.id :=
  C9_get_player_identity connLive 5 1 2
    (fun _ _ hp => Option.noConfusion hp)
    (fun _ _ _ _ _ hp _ => Option.noConfusion hp)
    (by decide)

/-- The pause loop bookkeeping of spawnUnlimbo leaves the registry
untouched. -/
theorem spawnUnlimbo_players (c : Connection) (sid : Nat) :
    (spawnUnlimbo c sid).players = c.players := by
  unfold spawnUnlimbo
  split <;> rfl

/-- The pause loop bookkeeping of spawnUnlimbo leaves the limbo table
untouched. -/
theorem spawnUnlimbo_limbo (c : Connection) (sid : Nat) :
    (spawnUnlimbo c sid).limbo = c.limbo := by
  unfold spawnUnlimbo
  split <;> rfl

/-- Discord view for the C3 counterexample: a single shard whose
websocket is absent, so the shard samples as down. -/
def discordDown : DiscordState := { shardCount := 1, ws := fun _ => none }

/-- Player for the C3 counterexample: believed connected to channel 5,
not paused. -/
def playerC3 : Player := { Player.init 0 0 with channel := some 5 }

/-- Connection for the C3 counterexample: the Lavalink side connected,
one registered player for guild 0, nothing in limbo. -/
def connC3 : Connection :=
  { websocket := some true, players := [(0, playerC3)], limbo := [],
    unlimboTasks := [], sent := [], nextId := 1 }

/-- C3: the claim says a down-sample takes no destructive action and no
player on the down shard is disconnected, paused or otherwise mutated at
that instant. Running one monitor cycle while the only shard samples as
down mutates the player of guild 0 from channel 5 and unpaused to
channel none and paused. -/
theorem C3_down_sample_mutation_counterexample :
    (Connection._discord_connection_handler_cycle discordDown connC3).toOption.map
        (fun c2 => (AList.lookup c2.players 0).map (fun p => (p.channel, p.paused)))
      = some (some (none, true)) ∧
    (AList.lookup connC3.players 0).map (fun p => (p.channel, p.paused))
      = some (some 5, false) := by
  exact ⟨rfl, rfl⟩

/-- Binding an Except value against pure returns the value itself. -/
theorem except_bind_pure (r : Except PyErr Connection) :
    (r >>= fun x => (pure x : Except PyErr Connection)) = r := by
  cases r <;> rfl

/-- C3 (amended): on the very cycle that samples a shard as down, the
monitor evacuates each affected connected player rather than leaving it
untouched: it disconnects the player (clearing its channel), pauses it
when it was not paused, records the pre-outage channel and the pending
unpause action in the limbo table, and registers a reconnect task for the
shard; reconnection to the recorded channel is the job of that task once
the shard recovers. Stated for a registry holding the affected player. -/
theorem C3_down_sample_evacuates (d : DiscordState) (c : Connection) (g : Int) (p : Player)
    (ch : Int)
    (hp : c.players = [(g, p)])
    (hlimbo : AList.lookup c.limbo g = none)
    (hws : c.websocket = some true)
    (hch : p.channel = some ch) (hch0 : ch ≠ 0)
    (hpan : panicking d (shardOf d.shardCount g) = true) :
    ∃ c2, Connection._discord_connection_handler_cycle d c = .ok c2 ∧
      AList.lookup c2.players g = some { p with channel := none, paused := true } ∧
      AList.lookup c2.limbo g = some { channel := ch, unpause := !p.paused } ∧
      c2.unlimboTasks.contains (shardOf d.shardCount g) = true := by
  cases hpd : p.paused
  · refine ⟨spawnUnlimbo
      { c with
        sent := c.sent ++
          [coerceEnv { op := some "disconnect", guildId := some (.int g) },
            coerceEnv { op := some "pause", guildId := some (.int g), pause := some true }],
        players := [(g, { p with channel := none, paused := true })],
        limbo := AList.set c.limbo g { channel := ch, unpause := true } }
      (shardOf d.shardCount g), ?_, ?_, ?_, ?_⟩
    · simp [Connection._discord_connection_handler_cycle, handleGuild, Player.disconnect,
        Player.set_pause, Connection._discord_disconnect, Connection._discord_pause,
        Connection._send, Connection.connected, channelTruthy, AList.keys, AList.lookup,
        AList.set, AList.modify, hp, hlimbo, hws, hch, hch0, hpd, hpan, List.foldlM,
        except_bind_pure]
    · rw [spawnUnlimbo_players]
      simp [AList.lookup]
    · rw [spawnUnlimbo_limbo]
      simp [AList.lookup_set_self, hpd]
    · exact spawnUnlimbo_contains _ _
  · refine ⟨spawnUnlimbo
      { c with
        sent := c.sent ++
          [coerceEnv { op := some "disconnect", guildId := some (.int g) }],
        players := [(g, { p with channel := none })],
        limbo := AList.set c.limbo g { channel := ch, unpause := false } }
      (shardOf d.shardCount g), ?_, ?_, ?_, ?_⟩
    · simp [Connection._discord_connection_handler_cycle, handleGuild, Player.disconnect,
        Player.set_pause, Connection._discord_disconnect, Connection._discord_pause,
        Connection._send, Connection.connected, channelTruthy, AList.keys, AList.lookup,
        AList.set, AList.modify, hp, hlimbo, hws, hch, hch0, hpd, hpan, List.foldlM,
        except_bind_pure]
    · rw [spawnUnlimbo_players]
      have hpeq : ({ p with channel := none, paused := true } : Player)
          = { p with channel := none } := by
        cases p
        simp_all
      rw [hpeq]
      simp [AList.lookup]
    · rw [spawnUnlimbo_limbo]
      simp [AList.lookup_set_self, hpd]
    · exact spawnUnlimbo_contains _ _

/-- Witness instantiating the amended C3 on the concrete down-shard
state. -/
theorem C3_down_sample_evacuates_witness :
    ∃ c2, Connection._discord_connection_handler_cycle discordDown connC3 = .ok c2 ∧
      AList.lookup c2.players 0 = some { playerC3 with channel := none, paused := true } ∧
      AList.lookup c2.limbo 0 = some { channel := 5, unpause := !playerC3.paused } ∧
      c2.unlimboTasks.contains (shardOf discordDown.shardCount 0) = true :=
  C3_down_sample_evacuates discordDown connC3 0 playerC3 5 rfl rfl rfl rfl
    (by decide) (by decide)

end Pylava
